import Mathlib

/-!
Shallow embedding of the balloon-ascent program (`src/main.py`) over ℚ.

The program's floating-point scalars are modelled as rationals; the
transcendental library calls (`np.cos`, `np.sqrt`, `np.arctan2`) are
abstracted as function parameters, since no claim depends on their
values.  The two `while` loops of the source have no termination
guarantee, so both are embedded with an explicit fuel argument: a run
that exhausts its fuel yields `none`, and a statement that the result is
`none` for every fuel amount expresses that the Python loop never
terminates.  Python's `ZeroDivisionError` (caught by the source's broad
`except`, which returns `None`) is modelled by an explicit test on the
denominator before dividing.
-/

namespace Balloon

/-- The fixed time step `dt = 0.1` of `simulate_balloon_ascent`. -/
def dt : ℚ := 1 / 10

/-- The `while height < 20000` loop of `simulate_balloon_ascent`
(src/main.py lines 74-80), with explicit state (`height`,
`horizontal_position`, `trajectory`) and fuel.  Each iteration computes
`vertical_speed = (lift_force - mass_cargo*9.8) / (mass_cargo + volume_balloon*1.225)`
and `horizontal_speed = wind_speed * cos wind_direction`, advances the
state by one `dt` step and appends the new point.  A zero denominator is
Python's `ZeroDivisionError`, which the source's `except` turns into
`None`. -/
def ascentLoop (cosFn : ℚ → ℚ)
    (mass_cargo volume_balloon lift_force wind_speed wind_direction : ℚ) :
    ℚ → ℚ → List (ℚ × ℚ) → ℕ → Option (List (ℚ × ℚ))
  | height, _, trajectory, 0 =>
      if height < 20000 then none else some trajectory
  | height, horizontal_position, trajectory, fuel + 1 =>
      if height < 20000 then
        if mass_cargo + volume_balloon * (1225 / 1000) = 0 then none
        else
          let vertical_speed :=
            (lift_force - mass_cargo * (98 / 10)) /
              (mass_cargo + volume_balloon * (1225 / 1000))
          let horizontal_speed := wind_speed * cosFn wind_direction
          ascentLoop cosFn mass_cargo volume_balloon lift_force wind_speed wind_direction
            (height + vertical_speed * dt)
            (horizontal_position + horizontal_speed * dt)
            (trajectory ++ [(horizontal_position + horizontal_speed * dt,
                             height + vertical_speed * dt)])
            fuel
      else some trajectory

/-- Embeds `simulate_balloon_ascent` (src/main.py lines 63-81): starts at
`height = 0`, `horizontal_position = 0` with an empty trajectory.  The
`temperature`, `humidity` and `pressure` arguments are accepted, as in
the source, and never read. -/
def simulate_balloon_ascent (cosFn : ℚ → ℚ)
    (mass_cargo volume_balloon lift_force : ℚ)
    (temperature humidity pressure : List ℚ)
    (wind_speed wind_direction : ℚ) (fuel : ℕ) : Option (List (ℚ × ℚ)) :=
  ascentLoop cosFn mass_cargo volume_balloon lift_force wind_speed wind_direction
    0 0 [] fuel

/-- Computes `lift_force = volume_balloon * (1.225 - 1.2) * 9.8`
(src/main.py lines 95 and 105). -/
def lift_force_of (volume_balloon : ℚ) : ℚ :=
  volume_balloon * (1225 / 1000 - 12 / 10) * (98 / 10)

/-- Models `np.max(trajectory[:, 1])`: the largest height of the trajectory,
`none` on an empty array (where `np.max` raises and the source's
`except` returns `(None, None)`). -/
def np_max_heights : List (ℚ × ℚ) → Option ℚ
  | [] => none
  | q :: qs => some (qs.foldl (fun m r => max m r.2) q.2)

/-- The adjustment step of `optimize_balloon_parameters` (src/main.py
lines 101-104): if `max_height < target_height` the volume grows by 1,
otherwise the cargo mass shrinks by 0.1. -/
def optAdjust (target_height max_height mass_cargo volume_balloon : ℚ) : ℚ × ℚ :=
  if max_height < target_height then (mass_cargo, volume_balloon + 1)
  else (mass_cargo - 1 / 10, volume_balloon)

/-- The `while abs(max_height - target_height) > 100` loop of
`optimize_balloon_parameters` (src/main.py lines 100-109), with explicit
state (`mass_cargo`, `volume_balloon`, `max_height`) and fuel.  Each
iteration adjusts one parameter, recomputes `lift_force` from the new
volume, re-runs the simulator, and takes the new maximal height. -/
def optimizeLoop (cosFn : ℚ → ℚ) (target_height : ℚ)
    (temperature humidity pressure : List ℚ)
    (wind_speed wind_direction : ℚ) (simFuel : ℕ) :
    ℚ → ℚ → ℚ → ℕ → Option (ℚ × ℚ)
  | mass_cargo, volume_balloon, max_height, 0 =>
      if 100 < |max_height - target_height| then none
      else some (mass_cargo, volume_balloon)
  | mass_cargo, volume_balloon, max_height, fuel + 1 =>
      if 100 < |max_height - target_height| then
        let c := optAdjust target_height max_height mass_cargo volume_balloon
        match simulate_balloon_ascent cosFn c.1 c.2 (lift_force_of c.2)
            temperature humidity pressure wind_speed wind_direction simFuel with
        | none => none
        | some trajectory =>
          match np_max_heights trajectory with
          | none => none
          | some mh =>
              optimizeLoop cosFn target_height temperature humidity pressure
                wind_speed wind_direction simFuel c.1 c.2 mh fuel
      else some (mass_cargo, volume_balloon)

/-- Embeds `optimize_balloon_parameters` (src/main.py lines 86-110): seeds the
search at `mass_cargo = 2`, `volume_balloon = 10`, computes `lift_force`
from the seed volume, runs the simulator once, then enters the search
loop. -/
def optimize_balloon_parameters (cosFn : ℚ → ℚ) (target_height : ℚ)
    (temperature humidity pressure : List ℚ)
    (wind_speed wind_direction : ℚ) (simFuel optFuel : ℕ) : Option (ℚ × ℚ) :=
  match simulate_balloon_ascent cosFn 2 10 (lift_force_of 10)
      temperature humidity pressure wind_speed wind_direction simFuel with
  | none => none
  | some trajectory =>
    match np_max_heights trajectory with
    | none => none
    | some mh =>
        optimizeLoop cosFn target_height temperature humidity pressure
          wind_speed wind_direction simFuel 2 10 mh optFuel

/-- The raw field bundle consumed by `analyze_atmospheric_data`: arrays
over a shared native height coordinate. -/
structure AtmosphericData where
  heights : List ℚ
  temperature : List ℚ
  humidity : List ℚ
  pressure : List ℚ
  u_wind : List ℚ
  v_wind : List ℚ

/-- The processed profile returned by `analyze_atmospheric_data`.  The
interpolated arrays hold `none` where xarray's linear interpolation
yields NaN (a query height outside the native range). -/
structure AtmosphericProfile where
  temperature : List (Option ℚ)
  humidity : List (Option ℚ)
  pressure : List (Option ℚ)
  wind_speed : List ℚ
  wind_direction : List ℚ

/-- Models `np.linspace a b num`: `num` evenly spaced points from `a` to
`b` inclusive. -/
def linspace (a b : ℚ) (num : ℕ) : List ℚ :=
  (List.range num).map fun i : ℕ => a + (b - a) * (i : ℚ) / ((num : ℚ) - 1)

/-- Linear interpolation of a table of (height, value) pairs sorted by
height, as performed by `DataArray.interp(..., method="linear")`:
a query between two consecutive heights gets the affine blend of their
values; a query outside the native range gets NaN, modelled `none`. -/
def interp1 : List (ℚ × ℚ) → ℚ → Option ℚ
  | [], _ => none
  | [(x0, y0)], x => if x = x0 then some y0 else none
  | (x0, y0) :: (x1, y1) :: tl, x =>
      if x < x0 then none
      else if x ≤ x1 then some (y0 + (y1 - y0) * (x - x0) / (x1 - x0))
      else interp1 ((x1, y1) :: tl) x

/-- Embeds `analyze_atmospheric_data` (src/main.py lines 46-58): temperature,
humidity and pressure are resampled by linear interpolation onto
`np.linspace 0 20000 1000`; wind speed `sqrt(u^2+v^2)` and wind
direction `arctan2(v, u)` are computed pointwise at native resolution.
`sqrtFn` and `atan2Fn` abstract `np.sqrt` and `np.arctan2`. -/
def analyze_atmospheric_data (sqrtFn : ℚ → ℚ) (atan2Fn : ℚ → ℚ → ℚ)
    (d : AtmosphericData) : AtmosphericProfile :=
  { temperature := (linspace 0 20000 1000).map (interp1 (d.heights.zip d.temperature))
    humidity := (linspace 0 20000 1000).map (interp1 (d.heights.zip d.humidity))
    pressure := (linspace 0 20000 1000).map (interp1 (d.heights.zip d.pressure))
    wind_speed := (d.u_wind.zip d.v_wind).map fun p => sqrtFn (p.1 ^ 2 + p.2 ^ 2)
    wind_direction := (d.u_wind.zip d.v_wind).map fun p => atan2Fn p.2 p.1 }

/-! ## Lemmas about the simulation loop -/

/-- The trajectory accumulator is a pure prefix: running the loop from an
arbitrary accumulator appends the same suffix as running it from `[]`. -/
theorem ascentLoop_append (cosFn : ℚ → ℚ) (m v L ws wd : ℚ) :
    ∀ (fuel : ℕ) (h pos : ℚ) (traj : List (ℚ × ℚ)),
      ascentLoop cosFn m v L ws wd h pos traj fuel =
        Option.map (traj ++ ·) (ascentLoop cosFn m v L ws wd h pos [] fuel) := by
  intro fuel
  induction fuel with
  | zero =>
    intro h pos traj
    by_cases hh : h < 20000 <;> simp [ascentLoop, hh]
  | succ n ih =>
    intro h pos traj
    by_cases hh : h < 20000
    · by_cases hd : m + v * (1225 / 1000) = 0
      · simp [ascentLoop, hh, hd]
      · simp only [ascentLoop, if_pos hh, if_neg hd]
        rw [ih, ih _ _ ([] ++ [_])]
        simp [Function.comp_def]
    · simp [ascentLoop, hh]

/-- When the vertical speed is non-positive the height never reaches 20000,
so the loop exhausts any amount of fuel: the Python `while` never exits. -/
theorem ascentLoop_none_of_nonpos (cosFn : ℚ → ℚ) (m v L ws wd : ℚ)
    (hvs : (L - m * (98 / 10)) / (m + v * (1225 / 1000)) ≤ 0) :
    ∀ (fuel : ℕ) (h pos : ℚ) (traj : List (ℚ × ℚ)), h < 20000 →
      ascentLoop cosFn m v L ws wd h pos traj fuel = none := by
  intro fuel
  induction fuel with
  | zero =>
    intro h pos traj hh
    simp [ascentLoop, hh]
  | succ n ih =>
    intro h pos traj hh
    by_cases hd : m + v * (1225 / 1000) = 0
    · simp [ascentLoop, hh, hd]
    · have hstep : (L - m * (98 / 10)) / (m + v * (1225 / 1000)) * dt ≤ 0 := by
        have h0 : (0 : ℚ) ≤ dt := by norm_num [dt]
        have := mul_le_mul_of_nonneg_right hvs h0
        simpa using this
      simp only [ascentLoop, if_pos hh, if_neg hd]
      exact ih _ _ _ (by linarith)

/-! ## Claim theorems: divergence of the optimizer and of non-ascending runs -/

/-- C1.  The optimizer never terminates successfully, for any profile,
target height or fuel bounds: its seed configuration (`mass_cargo = 2`,
`volume_balloon = 10`) has `lift_force = 2.45 < 19.6 = mass_cargo * 9.8`,
so the very first call to the simulator loops forever and no
configuration is ever returned.  The convergence invariant claimed for
successful terminations is therefore never realised. -/
theorem optimize_balloon_parameters_never_succeeds
    (cosFn : ℚ → ℚ) (target : ℚ) (t hu pr : List ℚ) (ws wd : ℚ)
    (simFuel optFuel : ℕ) :
    optimize_balloon_parameters cosFn target t hu pr ws wd simFuel optFuel = none := by
  have hvs : (lift_force_of 10 - 2 * (98 / 10)) / (2 + 10 * (1225 / 1000)) ≤ (0 : ℚ) := by
    norm_num [lift_force_of]
  have hsim : simulate_balloon_ascent cosFn 2 10 (lift_force_of 10)
      t hu pr ws wd simFuel = none :=
    ascentLoop_none_of_nonpos cosFn 2 10 (lift_force_of 10) ws wd hvs simFuel 0 0 []
      (by norm_num)
  simp [optimize_balloon_parameters, hsim]

/-- C4.  With `lift_force ≤ cargo_mass * 9.8` (and a physical, positive
denominator) the simulator does not fail fast: the loop burns any amount
of fuel and never produces a result, i.e. the Python `while` loops
indefinitely instead of raising a `NonAscendingConfigError`. -/
theorem simulate_diverges_of_nonpositive_lift (cosFn : ℚ → ℚ) (m v L : ℚ)
    (t hu pr : List ℚ) (ws wd : ℚ)
    (hL : L ≤ m * (98 / 10)) (hd : 0 < m + v * (1225 / 1000)) :
    ∀ fuel, simulate_balloon_ascent cosFn m v L t hu pr ws wd fuel = none := by
  intro fuel
  have hvs : (L - m * (98 / 10)) / (m + v * (1225 / 1000)) ≤ 0 :=
    div_nonpos_of_nonpos_of_nonneg (by linarith) hd.le
  exact ascentLoop_none_of_nonpos cosFn m v L ws wd hvs fuel 0 0 [] (by norm_num)

/-- Witness for C4 at a concrete non-ascending configuration. -/
theorem simulate_diverges_of_nonpositive_lift_witness :
    simulate_balloon_ascent (fun _ => 0) 2 10 0 [] [] [] 0 0 1000 = none :=
  simulate_diverges_of_nonpositive_lift (fun _ => 0) 2 10 0 [] [] [] 0 0
    (by norm_num) (by norm_num) 1000

/-- C10.  The simulator never reads the temperature, humidity or pressure
arguments: two calls agreeing on every other argument return identical
results whatever those three fields are. -/
theorem simulate_independent_of_thermo_fields (cosFn : ℚ → ℚ) (m v L : ℚ)
    (t₁ hu₁ pr₁ t₂ hu₂ pr₂ : List ℚ) (ws wd : ℚ) (fuel : ℕ) :
    simulate_balloon_ascent cosFn m v L t₁ hu₁ pr₁ ws wd fuel =
      simulate_balloon_ascent cosFn m v L t₂ hu₂ pr₂ ws wd fuel := rfl

/-- C2.  One simulation step, exactly as the source writes it: with
`dt = 0.1`, while `height < 20000` the loop computes
`vertical_speed = (lift_force - cargo_mass*9.8)/(cargo_mass + envelope_volume*1.225)`
and `horizontal_speed = wind_speed * cos wind_direction`, bumps the height
and horizontal position by `speed * dt`, and appends the new point. -/
theorem simulate_step_equation (cosFn : ℚ → ℚ) (m v L ws wd h pos : ℚ)
    (traj : List (ℚ × ℚ)) (fuel : ℕ) (hh : h < 20000)
    (hd : m + v * (1225 / 1000) ≠ 0) :
    dt = 1 / 10 ∧
    ascentLoop cosFn m v L ws wd h pos traj (fuel + 1) =
      ascentLoop cosFn m v L ws wd
        (h + (L - m * (98 / 10)) / (m + v * (1225 / 1000)) * dt)
        (pos + ws * cosFn wd * dt)
        (traj ++ [(pos + ws * cosFn wd * dt,
                   h + (L - m * (98 / 10)) / (m + v * (1225 / 1000)) * dt)])
        fuel := by
  refine ⟨rfl, ?_⟩
  simp only [ascentLoop, if_pos hh, if_neg hd]

/-- Witness for C2 at a concrete state below 20000 m. -/
theorem simulate_step_equation_witness :
    dt = 1 / 10 ∧
    ascentLoop (fun _ => 0) 2 10 0 0 0 0 0 [] (0 + 1) =
      ascentLoop (fun _ => 0) 2 10 0 0 0
        (0 + (0 - 2 * (98 / 10)) / (2 + 10 * (1225 / 1000)) * dt)
        (0 + 0 * (fun _ : ℚ => (0 : ℚ)) 0 * dt)
        ([] ++ [(0 + 0 * (fun _ : ℚ => (0 : ℚ)) 0 * dt,
                 0 + (0 - 2 * (98 / 10)) / (2 + 10 * (1225 / 1000)) * dt)])
        0 :=
  simulate_step_equation (fun _ => 0) 2 10 0 0 0 0 0 [] 0 (by norm_num) (by norm_num)

/-- With non-negative per-step climb, enough fuel to push the height past
20000 makes the loop return a trajectory. -/
theorem ascentLoop_isSome (cosFn : ℚ → ℚ) (m v L ws wd : ℚ)
    (hvsd : 0 ≤ (L - m * (98 / 10)) / (m + v * (1225 / 1000)) * dt) :
    ∀ (fuel : ℕ) (h pos : ℚ) (traj : List (ℚ × ℚ)),
      20000 ≤ h + fuel * ((L - m * (98 / 10)) / (m + v * (1225 / 1000)) * dt) →
      (ascentLoop cosFn m v L ws wd h pos traj fuel).isSome := by
  intro fuel
  induction fuel with
  | zero =>
    intro h pos traj hbig
    have hh : ¬ h < 20000 := by push_cast at hbig; linarith
    simp [ascentLoop, hh]
  | succ n ih =>
    intro h pos traj hbig
    by_cases hh : h < 20000
    · by_cases hd : m + v * (1225 / 1000) = 0
      · rw [hd, div_zero, zero_mul, mul_zero, add_zero] at hbig
        linarith
      · simp only [ascentLoop, if_pos hh, if_neg hd]
        apply ih
        push_cast at hbig ⊢
        linarith
    · simp [ascentLoop, hh]

/-- On success, the last point of the extended trajectory has height at
least 20000: the loop exits only once the height passes the ceiling. -/
theorem ascentLoop_getLast (cosFn : ℚ → ℚ) (m v L ws wd : ℚ) :
    ∀ (fuel : ℕ) (h pos : ℚ) (r : List (ℚ × ℚ)),
      ascentLoop cosFn m v L ws wd h pos [] fuel = some r →
      ∃ q, ((pos, h) :: r).getLast? = some q ∧ 20000 ≤ q.2 := by
  intro fuel
  induction fuel with
  | zero =>
    intro h pos r hr
    by_cases hh : h < 20000
    · simp [ascentLoop, hh] at hr
    · simp [ascentLoop, hh] at hr
      subst hr
      exact ⟨(pos, h), by simp, by simpa using not_lt.1 hh⟩
  | succ n ih =>
    intro h pos r hr
    by_cases hh : h < 20000
    · by_cases hd : m + v * (1225 / 1000) = 0
      · simp [ascentLoop, hh, hd] at hr
      · simp only [ascentLoop, if_pos hh, if_neg hd, List.nil_append] at hr
        rw [ascentLoop_append] at hr
        rw [Option.map_eq_some'] at hr
        obtain ⟨r', hr', rfl⟩ := hr
        obtain ⟨q, hq, hq2⟩ := ih _ _ _ hr'
        refine ⟨q, ?_, hq2⟩
        simpa [List.getLast?_cons_cons] using hq
    · simp [ascentLoop, hh] at hr
      subst hr
      exact ⟨(pos, h), by simp, by simpa using not_lt.1 hh⟩

/-- With non-negative per-step climb, the heights along the produced
trajectory are non-decreasing in time order (starting from the entry
state). -/
theorem ascentLoop_chain (cosFn : ℚ → ℚ) (m v L ws wd : ℚ)
    (hvsd : 0 ≤ (L - m * (98 / 10)) / (m + v * (1225 / 1000)) * dt) :
    ∀ (fuel : ℕ) (h pos : ℚ) (r : List (ℚ × ℚ)),
      ascentLoop cosFn m v L ws wd h pos [] fuel = some r →
      List.Chain' (fun a b : ℚ × ℚ => a.2 ≤ b.2) ((pos, h) :: r) := by
  intro fuel
  induction fuel with
  | zero =>
    intro h pos r hr
    by_cases hh : h < 20000
    · simp [ascentLoop, hh] at hr
    · simp [ascentLoop, hh] at hr
      subst hr
      simp
  | succ n ih =>
    intro h pos r hr
    by_cases hh : h < 20000
    · by_cases hd : m + v * (1225 / 1000) = 0
      · simp [ascentLoop, hh, hd] at hr
      · simp only [ascentLoop, if_pos hh, if_neg hd, List.nil_append] at hr
        rw [ascentLoop_append] at hr
        rw [Option.map_eq_some'] at hr
        obtain ⟨r', hr', rfl⟩ := hr
        have hchain := ih _ _ _ hr'
        rw [List.singleton_append, List.chain'_cons]
        exact ⟨by simpa using hvsd, hchain⟩
    · simp [ascentLoop, hh] at hr
      subst hr
      simp

/-- On success from an empty accumulator, either no step ran, or the
state one step before the final one was still below 20000: the number of
appended points exceeds the needed climb count by at most one. -/
theorem ascentLoop_length (cosFn : ℚ → ℚ) (m v L ws wd : ℚ) :
    ∀ (fuel : ℕ) (h pos : ℚ) (r : List (ℚ × ℚ)),
      ascentLoop cosFn m v L ws wd h pos [] fuel = some r →
      r = [] ∨ ∃ n : ℕ, r.length = n + 1 ∧
        h + n * ((L - m * (98 / 10)) / (m + v * (1225 / 1000)) * dt) < 20000 := by
  intro fuel
  induction fuel with
  | zero =>
    intro h pos r hr
    by_cases hh : h < 20000
    · simp [ascentLoop, hh] at hr
    · simp [ascentLoop, hh] at hr
      subst hr
      exact Or.inl rfl
  | succ n ih =>
    intro h pos r hr
    by_cases hh : h < 20000
    · by_cases hd : m + v * (1225 / 1000) = 0
      · simp [ascentLoop, hh, hd] at hr
      · simp only [ascentLoop, if_pos hh, if_neg hd, List.nil_append] at hr
        rw [ascentLoop_append] at hr
        rw [Option.map_eq_some'] at hr
        obtain ⟨r', hr', rfl⟩ := hr
        obtain h0 | ⟨k, hk, hlt⟩ := ih _ _ _ hr'
        · subst h0
          exact Or.inr ⟨0, by simp, by simpa using hh⟩
        · refine Or.inr ⟨k + 1, by simp [hk], ?_⟩
          push_cast
          linarith
    · simp [ascentLoop, hh] at hr
      subst hr
      exact Or.inl rfl

/-- On success from a state below 20000, the first produced point is the
state after one step. -/
theorem ascentLoop_head (cosFn : ℚ → ℚ) (m v L ws wd : ℚ) :
    ∀ (fuel : ℕ) (h pos : ℚ) (r : List (ℚ × ℚ)), h < 20000 →
      ascentLoop cosFn m v L ws wd h pos [] fuel = some r →
      r.head? = some (pos + ws * cosFn wd * dt,
        h + (L - m * (98 / 10)) / (m + v * (1225 / 1000)) * dt) := by
  intro fuel h pos r hh hr
  cases fuel with
  | zero => simp [ascentLoop, hh] at hr
  | succ n =>
    by_cases hd : m + v * (1225 / 1000) = 0
    · simp [ascentLoop, hh, hd] at hr
    · simp only [ascentLoop, if_pos hh, if_neg hd, List.nil_append] at hr
      rw [ascentLoop_append] at hr
      rw [Option.map_eq_some'] at hr
      obtain ⟨r', hr', rfl⟩ := hr
      simp

/-- C3.  A configuration with `lift_force > cargo_mass * 9.8` (and a
physical config: positive mass, non-negative volume) ascends: the loop
terminates within a number of steps bounded by `20000 / vertical_speed / dt + 1`,
the returned heights are non-decreasing in time order, and the run ends
with a final height of at least 20000. -/
theorem simulate_terminates_of_positive_lift (cosFn : ℚ → ℚ) (m v L : ℚ)
    (t hu pr : List ℚ) (ws wd : ℚ)
    (hm : 0 < m) (hv : 0 ≤ v) (hL : m * (98 / 10) < L) :
    ∃ N : ℕ,
      (N : ℚ) ≤ 20000 / ((L - m * (98 / 10)) / (m + v * (1225 / 1000)) * dt) + 1 ∧
      ∀ fuel, N ≤ fuel → ∃ traj,
        simulate_balloon_ascent cosFn m v L t hu pr ws wd fuel = some traj ∧
        List.Chain' (fun a b : ℚ × ℚ => a.2 ≤ b.2) traj ∧
        (∃ q, traj.getLast? = some q ∧ 20000 ≤ q.2) ∧
        (traj.length : ℚ) ≤
          20000 / ((L - m * (98 / 10)) / (m + v * (1225 / 1000)) * dt) + 1 := by
  have hdpos : 0 < m + v * (1225 / 1000) := by
    have : 0 ≤ v * (1225 / 1000) := by positivity
    linarith
  have hvsdpos : 0 < (L - m * (98 / 10)) / (m + v * (1225 / 1000)) * dt :=
    mul_pos (div_pos (by linarith) hdpos) (by norm_num [dt])
  set vsd := (L - m * (98 / 10)) / (m + v * (1225 / 1000)) * dt with hvsd
  refine ⟨Nat.ceil (20000 / vsd), ?_, ?_⟩
  · have h0 : (0 : ℚ) ≤ 20000 / vsd := by positivity
    exact (Nat.ceil_lt_add_one h0).le
  · intro fuel hfuel
    have hbig : 20000 ≤ 0 + (fuel : ℚ) * vsd := by
      have h1 : 20000 / vsd ≤ (Nat.ceil (20000 / vsd) : ℚ) := Nat.le_ceil _
      have h2 : ((Nat.ceil (20000 / vsd) : ℕ) : ℚ) ≤ (fuel : ℚ) := by
        exact_mod_cast hfuel
      rw [div_le_iff₀ hvsdpos] at h1
      have h3 : ((Nat.ceil (20000 / vsd) : ℕ) : ℚ) * vsd ≤ (fuel : ℚ) * vsd :=
        mul_le_mul_of_nonneg_right h2 hvsdpos.le
      linarith
    have hsome := ascentLoop_isSome cosFn m v L ws wd hvsdpos.le fuel 0 0 [] hbig
    obtain ⟨traj, htraj⟩ := Option.isSome_iff_exists.1 hsome
    refine ⟨traj, htraj, ?_, ?_, ?_⟩
    · exact (ascentLoop_chain cosFn m v L ws wd hvsdpos.le fuel 0 0 traj htraj).tail
    · obtain ⟨q, hq, hq2⟩ := ascentLoop_getLast cosFn m v L ws wd fuel 0 0 traj htraj
      cases traj with
      | nil =>
        exfalso
        simp at hq
        rw [← hq] at hq2
        norm_num at hq2
      | cons a l =>
        rw [List.getLast?_cons_cons] at hq
        exact ⟨q, hq, hq2⟩
    · obtain h0 | ⟨k, hk, hlt⟩ := ascentLoop_length cosFn m v L ws wd fuel 0 0 traj htraj
      · subst h0
        simp
        positivity
      · rw [hk]
        push_cast
        rw [← hvsd] at hlt
        have hklt : (k : ℚ) < 20000 / vsd := by
          rw [lt_div_iff₀ hvsdpos]
          linarith
        linarith

/-- Witness for C3: a concrete ascending configuration terminates. -/
theorem simulate_terminates_of_positive_lift_witness :
    (simulate_balloon_ascent (fun _ => 1) 1 0 200 [] [] [] 0 0 2000).isSome := by
  obtain ⟨N, hN, hall⟩ :=
    simulate_terminates_of_positive_lift (fun _ => 1) 1 0 200 [] [] [] 0 0
      (by norm_num) (by norm_num) (by norm_num)
  have hbound : (N : ℚ) ≤ 2000 := by
    refine le_trans hN ?_
    norm_num [dt]
  have hN2000 : N ≤ 2000 := by exact_mod_cast hbound
  obtain ⟨traj, htraj, -⟩ := hall 2000 hN2000
  rw [htraj]
  rfl

/-- C9 counterexample.  A concrete run (cargo 1 kg, volume 0, lift
200009.8, one step of climb 20000) returns the one-point trajectory
[(0, 20000)]: its first point is not the launch point (0, 0), because the
source appends each point only after updating the state. -/
theorem trajectory_first_point_not_origin :
    simulate_balloon_ascent (fun _ => 0) 1 0 (1000049 / 5) [] [] [] 0 0 1 =
      some [((0 : ℚ), (20000 : ℚ))] ∧
    [((0 : ℚ), (20000 : ℚ))].head? ≠ some ((0 : ℚ), (0 : ℚ)) := by
  constructor
  · norm_num [simulate_balloon_ascent, ascentLoop, dt]
  · norm_num

/-- C9 amended.  Every returned trajectory is nonempty; its first point
is the state after the first Euler step,
`(horizontal_speed * dt, vertical_speed * dt)` — the launch point (0,0)
is the initial state but is never itself appended — and its last point
has height at least 20000, the loop's exit condition. -/
theorem trajectory_endpoints (cosFn : ℚ → ℚ) (m v L : ℚ)
    (t hu pr : List ℚ) (ws wd : ℚ) (fuel : ℕ) (traj : List (ℚ × ℚ))
    (hsim : simulate_balloon_ascent cosFn m v L t hu pr ws wd fuel = some traj) :
    traj ≠ [] ∧
    traj.head? = some (0 + ws * cosFn wd * dt,
      0 + (L - m * (98 / 10)) / (m + v * (1225 / 1000)) * dt) ∧
    ∃ q, traj.getLast? = some q ∧ 20000 ≤ q.2 := by
  have hr : ascentLoop cosFn m v L ws wd 0 0 [] fuel = some traj := hsim
  obtain ⟨q, hq, hq2⟩ := ascentLoop_getLast cosFn m v L ws wd fuel 0 0 traj hr
  have hne : traj ≠ [] := by
    intro h0
    subst h0
    simp at hq
    rw [← hq] at hq2
    norm_num at hq2
  refine ⟨hne, ?_, ?_⟩
  · exact ascentLoop_head cosFn m v L ws wd fuel 0 0 traj (by norm_num) hr
  · cases traj with
    | nil => exact absurd rfl hne
    | cons a l =>
      rw [List.getLast?_cons_cons] at hq
      exact ⟨q, hq, hq2⟩

/-- Witness for the amended C9 at the concrete one-step run. -/
theorem trajectory_endpoints_witness :
    ([((0 : ℚ), (20000 : ℚ))] : List (ℚ × ℚ)) ≠ [] ∧
    ([((0 : ℚ), (20000 : ℚ))] : List (ℚ × ℚ)).head? =
      some (0 + 0 * (fun _ : ℚ => (0 : ℚ)) 0 * dt,
        0 + ((1000049 / 5 : ℚ) - 1 * (98 / 10)) / (1 + 0 * (1225 / 1000)) * dt) ∧
    ∃ q, ([((0 : ℚ), (20000 : ℚ))] : List (ℚ × ℚ)).getLast? = some q ∧ 20000 ≤ q.2 :=
  trajectory_endpoints (fun _ => 0) 1 0 (1000049 / 5) [] [] [] 0 0 1
    [((0 : ℚ), (20000 : ℚ))] (by norm_num [simulate_balloon_ascent, ascentLoop, dt])

/-! ## Lemmas and claims about the optimizer loop -/

/-- One optimizer adjustment never increases the cargo mass and never
decreases the envelope volume. -/
theorem optAdjust_le (target mh m v : ℚ) :
    (optAdjust target mh m v).1 ≤ m ∧ v ≤ (optAdjust target mh m v).2 := by
  unfold optAdjust
  split
  · exact ⟨le_rfl, by show v ≤ v + 1; linarith⟩
  · exact ⟨by show m - 1 / 10 ≤ m; linarith, le_rfl⟩

/-- One unfolding of the optimizer's search loop in its non-converged
case: the single adjusted configuration is re-simulated with the lift
force recomputed from its (possibly new) volume. -/
theorem optimizeLoop_step (cosFn : ℚ → ℚ) (target : ℚ) (t hu pr : List ℚ)
    (ws wd : ℚ) (sf : ℕ) (m v mh : ℚ) (fuel : ℕ)
    (hc : 100 < |mh - target|) :
    optimizeLoop cosFn target t hu pr ws wd sf m v mh (fuel + 1) =
      match simulate_balloon_ascent cosFn (optAdjust target mh m v).1
          (optAdjust target mh m v).2 (lift_force_of (optAdjust target mh m v).2)
          t hu pr ws wd sf with
      | none => none
      | some trajectory =>
        match np_max_heights trajectory with
        | none => none
        | some mh' =>
            optimizeLoop cosFn target t hu pr ws wd sf
              (optAdjust target mh m v).1 (optAdjust target mh m v).2 mh' fuel := by
  simp only [optimizeLoop, if_pos hc]

/-- Any successful outcome of the search loop has cargo mass at most the
entry mass and volume at least the entry volume. -/
theorem optimizeLoop_result_le (cosFn : ℚ → ℚ) (target : ℚ) (t hu pr : List ℚ)
    (ws wd : ℚ) (sf : ℕ) :
    ∀ (fuel : ℕ) (m v mh m' v' : ℚ),
      optimizeLoop cosFn target t hu pr ws wd sf m v mh fuel = some (m', v') →
      m' ≤ m ∧ v ≤ v' := by
  intro fuel
  induction fuel with
  | zero =>
    intro m v mh m' v' hr
    by_cases hc : 100 < |mh - target|
    · simp [optimizeLoop, hc] at hr
    · simp [optimizeLoop, hc] at hr
      obtain ⟨rfl, rfl⟩ := hr
      exact ⟨le_refl _, le_refl _⟩
  | succ n ih =>
    intro m v mh m' v' hr
    by_cases hc : 100 < |mh - target|
    · rw [optimizeLoop_step cosFn target t hu pr ws wd sf m v mh n hc] at hr
      split at hr
      · exact absurd hr (by simp)
      · split at hr
        · exact absurd hr (by simp)
        · have h1 := ih _ _ _ _ _ hr
          have h2 := optAdjust_le target mh m v
          exact ⟨le_trans h1.1 h2.1, le_trans h2.2 h1.2⟩
    · simp [optimizeLoop, hc] at hr
      obtain ⟨rfl, rfl⟩ := hr
      exact ⟨le_refl _, le_refl _⟩

/-- C5.  Each search-loop iteration adjusts exactly one parameter, with
strict priority: below the target the volume grows by 1 and the mass is
unchanged; otherwise the mass shrinks by 0.1 and the volume is unchanged.
Never both. -/
theorem optimizer_adjusts_exactly_one :
    ∀ (target mh m v : ℚ),
      (mh < target → optAdjust target mh m v = (m, v + 1)) ∧
      (target ≤ mh → optAdjust target mh m v = (m - 1 / 10, v)) ∧
      ((optAdjust target mh m v = (m, v + 1) ∧ v + 1 ≠ v) ∨
       (optAdjust target mh m v = (m - 1 / 10, v) ∧ m - 1 / 10 ≠ m)) ∧
      (∀ (cosFn : ℚ → ℚ) (t hu pr : List ℚ) (ws wd : ℚ) (sf fuel : ℕ),
        100 < |mh - target| →
        optimizeLoop cosFn target t hu pr ws wd sf m v mh (fuel + 1) =
          match simulate_balloon_ascent cosFn (optAdjust target mh m v).1
              (optAdjust target mh m v).2 (lift_force_of (optAdjust target mh m v).2)
              t hu pr ws wd sf with
          | none => none
          | some trajectory =>
            match np_max_heights trajectory with
            | none => none
            | some mh' =>
                optimizeLoop cosFn target t hu pr ws wd sf
                  (optAdjust target mh m v).1 (optAdjust target mh m v).2 mh' fuel) := by
  intro target mh m v
  refine ⟨?_, ?_, ?_, ?_⟩
  · intro h
    simp [optAdjust, h]
  · intro h
    simp [optAdjust, not_lt.2 h]
  · by_cases h : mh < target
    · exact Or.inl ⟨by simp [optAdjust, h], (lt_add_one v).ne'⟩
    · exact Or.inr ⟨by simp [optAdjust, h], (sub_lt_self m (by norm_num)).ne⟩
  · intro cosFn t hu pr ws wd sf fuel hc
    exact optimizeLoop_step cosFn target t hu pr ws wd sf m v mh fuel hc

/-- C6.  The optimizer is seeded at cargo mass 2 and volume 10, and every
simulation it launches — the seed run and every loop re-run — receives
`lift_force = volume * (1.225 - 1.2) * 9.8` computed from the current
volume. -/
theorem optimizer_seed_and_lift_force :
    (∀ vol : ℚ, lift_force_of vol = vol * (1225 / 1000 - 12 / 10) * (98 / 10)) ∧
    (∀ (cosFn : ℚ → ℚ) (target : ℚ) (t hu pr : List ℚ) (ws wd : ℚ) (sf o : ℕ),
      optimize_balloon_parameters cosFn target t hu pr ws wd sf o =
        match simulate_balloon_ascent cosFn 2 10 (lift_force_of 10)
            t hu pr ws wd sf with
        | none => none
        | some trajectory =>
          match np_max_heights trajectory with
          | none => none
          | some mh => optimizeLoop cosFn target t hu pr ws wd sf 2 10 mh o) ∧
    (∀ (cosFn : ℚ → ℚ) (target : ℚ) (t hu pr : List ℚ) (ws wd : ℚ)
        (sf : ℕ) (m v mh : ℚ) (fuel : ℕ),
      100 < |mh - target| →
      optimizeLoop cosFn target t hu pr ws wd sf m v mh (fuel + 1) =
        match simulate_balloon_ascent cosFn (optAdjust target mh m v).1
            (optAdjust target mh m v).2 (lift_force_of (optAdjust target mh m v).2)
            t hu pr ws wd sf with
        | none => none
        | some trajectory =>
          match np_max_heights trajectory with
          | none => none
          | some mh' =>
              optimizeLoop cosFn target t hu pr ws wd sf
                (optAdjust target mh m v).1 (optAdjust target mh m v).2 mh' fuel) := by
  refine ⟨fun _ => rfl, fun _ _ _ _ _ _ _ _ _ => rfl, ?_⟩
  intro cosFn target t hu pr ws wd sf m v mh fuel hc
  exact optimizeLoop_step cosFn target t hu pr ws wd sf m v mh fuel hc

/-- C7.  From any loop state dominated by the seed — cargo mass at most 2,
volume at least 10 — every configuration the search can return keeps
cargo mass ≤ 2 and volume ≥ 10; in particular any successful result of
the optimizer itself (which seeds the loop at exactly (2, 10)) does. -/
theorem optimizer_parameter_bounds :
    (∀ (cosFn : ℚ → ℚ) (target : ℚ) (t hu pr : List ℚ) (ws wd : ℚ)
        (sf fuel : ℕ) (m v mh m' v' : ℚ),
        m ≤ 2 → 10 ≤ v →
        optimizeLoop cosFn target t hu pr ws wd sf m v mh fuel = some (m', v') →
        m' ≤ 2 ∧ 10 ≤ v') ∧
    (∀ (cosFn : ℚ → ℚ) (target : ℚ) (t hu pr : List ℚ) (ws wd : ℚ)
        (sf o : ℕ) (r : ℚ × ℚ),
        optimize_balloon_parameters cosFn target t hu pr ws wd sf o = some r →
        r.1 ≤ 2 ∧ 10 ≤ r.2) := by
  constructor
  · intro cosFn target t hu pr ws wd sf fuel m v mh m' v' hm hv hr
    have := optimizeLoop_result_le cosFn target t hu pr ws wd sf fuel m v mh m' v' hr
    exact ⟨le_trans this.1 hm, le_trans hv this.2⟩
  · intro cosFn target t hu pr ws wd sf o r hr
    unfold optimize_balloon_parameters at hr
    split at hr
    · exact absurd hr (by simp)
    · split at hr
      · exact absurd hr (by simp)
      · obtain ⟨m', v'⟩ := r
        have := optimizeLoop_result_le cosFn target t hu pr ws wd sf o 2 10 _ m' v' hr
        exact ⟨this.1, this.2⟩

/-! ## Claim about the profile processor -/

set_option maxRecDepth 10000 in
/-- C8.  For any field bundle with at least two height levels (and wind
components aligned with the height coordinate), the processed profile's
temperature, humidity and pressure are the linear interpolations of the
native data sampled at exactly the 1000 points of `linspace 0 20000 1000`
— a grid whose first point is 0 and last point is 20000 — while wind
speed `sqrt(u^2+v^2)` and wind direction `atan2(v,u)` are computed
pointwise at native resolution. -/
theorem profile_resolution_and_wind (sqrtFn : ℚ → ℚ) (atan2Fn : ℚ → ℚ → ℚ)
    (d : AtmosphericData) (hlvl : 2 ≤ d.heights.length)
    (hu : d.u_wind.length = d.heights.length)
    (hv : d.v_wind.length = d.heights.length) :
    (analyze_atmospheric_data sqrtFn atan2Fn d).temperature.length = 1000 ∧
    (analyze_atmospheric_data sqrtFn atan2Fn d).humidity.length = 1000 ∧
    (analyze_atmospheric_data sqrtFn atan2Fn d).pressure.length = 1000 ∧
    (linspace 0 20000 1000).head? = some 0 ∧
    (linspace 0 20000 1000).getLast? = some 20000 ∧
    (analyze_atmospheric_data sqrtFn atan2Fn d).temperature =
      (linspace 0 20000 1000).map (interp1 (d.heights.zip d.temperature)) ∧
    (analyze_atmospheric_data sqrtFn atan2Fn d).humidity =
      (linspace 0 20000 1000).map (interp1 (d.heights.zip d.humidity)) ∧
    (analyze_atmospheric_data sqrtFn atan2Fn d).pressure =
      (linspace 0 20000 1000).map (interp1 (d.heights.zip d.pressure)) ∧
    (analyze_atmospheric_data sqrtFn atan2Fn d).wind_speed =
      (d.u_wind.zip d.v_wind).map (fun p => sqrtFn (p.1 ^ 2 + p.2 ^ 2)) ∧
    (analyze_atmospheric_data sqrtFn atan2Fn d).wind_direction =
      (d.u_wind.zip d.v_wind).map (fun p => atan2Fn p.2 p.1) ∧
    (analyze_atmospheric_data sqrtFn atan2Fn d).wind_speed.length =
      d.heights.length ∧
    (analyze_atmospheric_data sqrtFn atan2Fn d).wind_direction.length =
      d.heights.length := by
  refine ⟨?_, ?_, ?_, ?_, ?_, rfl, rfl, rfl, rfl, rfl, ?_, ?_⟩
  · simp [analyze_atmospheric_data, linspace]
  · simp [analyze_atmospheric_data, linspace]
  · simp [analyze_atmospheric_data, linspace]
  · rw [linspace, List.head?_eq_getElem?, List.getElem?_map,
        List.getElem?_range (by norm_num : (0 : ℕ) < 1000)]
    norm_num
  · rw [linspace, List.getLast?_eq_getElem?, List.length_map, List.length_range]
    have h1 : (1000 : ℕ) - 1 = 999 := rfl
    rw [h1, List.getElem?_map, List.getElem?_range (by norm_num : (999 : ℕ) < 1000)]
    norm_num
  · simp [analyze_atmospheric_data, hu, hv]
  · simp [analyze_atmospheric_data, hu, hv]

/-- Witness for C8 at a concrete two-level field bundle. -/
theorem profile_resolution_and_wind_witness :
    (analyze_atmospheric_data (fun x => x) (fun y _ => y)
        ⟨[0, 20000], [1, 2], [3, 4], [5, 6], [7, 8], [9, 10]⟩).temperature.length
      = 1000 ∧
    (analyze_atmospheric_data (fun x => x) (fun y _ => y)
        ⟨[0, 20000], [1, 2], [3, 4], [5, 6], [7, 8], [9, 10]⟩).wind_speed.length
      = ([0, 20000] : List ℚ).length := by
  obtain ⟨h1, -, -, -, -, -, -, -, -, -, h11, -⟩ :=
    profile_resolution_and_wind (fun x => x) (fun y _ => y)
      ⟨[0, 20000], [1, 2], [3, 4], [5, 6], [7, 8], [9, 10]⟩
      (by norm_num) rfl rfl
  exact ⟨h1, h11⟩

end Balloon
